import Mathlib

/-
Verification development for the chisel tunneling proxy (XevoInc/chisel),
server side session core. The definitions below are a shallow embedding of
the Go sources:

  * server/server.go   — Server, authUser, handleClientHandler,
                         handleWebsocket, handleSSHRequests, handleSSHChannels
  * share/server_session.go — ProxySSHSession.runWithSSHConn, Run,
                         handleSSHNewChannel, handleSSHChannels
  * the SSHSession variant of handleSSHNewChannel

Pure data is modelled directly; effectful steps are modelled as functions
from their inputs (including the externally-arriving SSH request, channel
opens, and the success of stub binds) to a record of the observable
outcome (reply sent, serving started, stubs bound, session-map state).
JSON / binary decoding of payloads is abstracted as an `Option` input:
`none` models input that fails to decode. Definitions whose Go source is
not part of the three files (chshare helpers) are modelled from the spec
and marked as such in their doc comments.
-/

/-! ## Data model: endpoint and channel descriptors (share package) -/

/-- Endpoint role, per the spec data model and the protobuf declaration
(UNKNOWN / STUB / SKELETON). -/
inductive ChannelEndpointRole where
  | unknown
  | stub
  | skeleton
  deriving DecidableEq, Repr

/-- Endpoint type: TCP, Unix socket, SOCKS, stdio, loopback. -/
inductive ChannelEndpointType where
  | tcp
  | unix
  | socks
  | stdio
  | loop
  deriving DecidableEq, Repr

/-- One endpoint description `(Role, Type, Path)`; this is what travels as
JSON extra data in an SSH channel open. -/
structure ChannelEndpointDescriptor where
  role : ChannelEndpointRole
  type : ChannelEndpointType
  path : String
  deriving DecidableEq, Repr

/-- One configured route: a stub descriptor, a skeleton descriptor and the
reverse flag. -/
structure ChannelDescriptor where
  reverse : Bool
  stub : ChannelEndpointDescriptor
  skeleton : ChannelEndpointDescriptor
  deriving DecidableEq, Repr

/-- A decoded session configuration request: client version string plus the
ordered list of channel descriptors. -/
structure SessionConfigRequest where
  version : String
  channelDescriptors : List ChannelDescriptor
  deriving DecidableEq, Repr

/-- An SSH control request as the server sees it: its type string and its
payload. Payload decoding (`SessionConfigRequest.Unmarshal` /
`chshare.DecodeConfig`) is abstracted: `payload = none` models a payload
that does not decode, `some c` a payload that decodes to `c`. -/
structure SSHRequest where
  reqType : String
  payload : Option SessionConfigRequest
  deriving DecidableEq, Repr

/-- Modelled from the spec: the textual name of an endpoint type used in a
route's compact textual form (the source renders the type as a lowercase
token, e.g. `tcp`). -/
def ChannelEndpointType.shortName : ChannelEndpointType → String
  | .tcp => "tcp"
  | .unix => "unix"
  | .socks => "socks"
  | .stdio => "stdio"
  | .loop => "loop"

/-- Modelled from the spec: `ChannelDescriptor.String()`, the compact
textual form of a route used as the key for access-control regex matching
(spec scenario S4 shows the form `tcp:127.0.0.1:9002`). -/
def ChannelDescriptor.stringForm (chd : ChannelDescriptor) : String :=
  (if chd.reverse then "R:" else "") ++ chd.skeleton.type.shortName ++ ":" ++ chd.skeleton.path

/-! ## Users and the session map (chshare.User / chshare.Users) -/

/-- A user record `(Name, Pass, AllowedRoutes)`. A "regex" is modelled
extensionally as its matcher function on route strings, since only
matching is observable in the session core. -/
structure User where
  name : String
  pass : String
  addrs : List (String → Bool)

/-- Modelled from the spec: the distinguished allow-all sentinel regex. -/
def UserAllowAll : String → Bool := fun _ => true

/-- Modelled from the spec: `User.HasAccess` — a user has access to a route
iff at least one regex of the user matches the route's textual form. -/
def User.hasAccess (u : User) (s : String) : Bool :=
  u.addrs.any (fun re => re s)

/-- Modelled from the spec: lookup in the `SessionID → User` session map
(`chshare.Users.Get`), an association-list rendering of the Go map. -/
def sessionsGet (m : List (String × User)) (k : String) : Option User :=
  (m.find? (fun p => p.1 == k)).map Prod.snd

/-- Modelled from the spec: deletion from the session map (`chshare.Users.Del`). -/
def sessionsDel (m : List (String × User)) (k : String) : List (String × User) :=
  m.filter (fun p => !(p.1 == k))

/-- Modelled from the spec: insertion into the session map
(`chshare.Users.Set`), Go map overwrite semantics. -/
def sessionsSet (m : List (String × User)) (k : String) (u : User) : List (String × User) :=
  (k, u) :: sessionsDel m k

theorem sessionsGet_del (m : List (String × User)) (k : String) :
    sessionsGet (sessionsDel m k) k = none := by
  induction m with
  | nil => rfl
  | cons p m ih =>
    by_cases h : p.1 = k
    · simp [sessionsDel, sessionsGet, h]
    · simp [sessionsDel, sessionsGet, h]

theorem sessionsGet_set (m : List (String × User)) (k : String) (u : User) :
    sessionsGet (sessionsSet m k u) k = some u := by
  simp [sessionsSet, sessionsGet, List.find?]

/-! ## Password authentication callback (server/server.go `authUser`) -/

/-- Embedding of `Server.authUser` (server/server.go). Returns whether the
`(username, password)` pair is accepted, and the session map after the
callback ran. Mirrors the source:
if no users are configured, accept (and record nothing); otherwise look the
user up by name, compare the stored password with the supplied one using
Go's plain string comparison (`user.Pass != string(password)`), and on
success record `(SessionID → User)` in the session map. -/
def authUser (users : List User) (sessions : List (String × User))
    (sid username password : String) : Bool × List (String × User) :=
  if users.length = 0 then
    (true, sessions)
  else
    match users.find? (fun u => u.name == username) with
    | none => (false, sessions)
    | some user =>
      if user.pass == password then
        (true, sessionsSet sessions sid user)
      else
        (false, sessions)

/-! ## The config step of one server session

`ProxySSHSession.runWithSSHConn` (share/server_session.go) and
`Server.handleWebsocket` (server/server.go) both drive a freshly
handshaken SSH connection through: pull the authenticated user out of the
session map, await the single config request (10 s timeout), validate it
(type, decoding, reverse permission, per-user route access), start the
reverse stub listeners, acknowledge, and then start serving requests and
channels. The step is modelled as a function of the externally arriving
request (`none` models the 10 second timeout elapsing with no request) and
of the success of each reverse stub bind. -/

/-- Observable outcome of the config step of one session. -/
structure ConfigStepResult where
  /-- The reply sent to the config request; `none` when no reply was sent
  (there was no request to reply to). `(false, msg)` is a failure reply
  carrying `msg`, `(true, _)` the success acknowledgement. -/
  reply : Option (Bool × String)
  /-- Whether the session went on to serve SSH requests and channel opens
  (`go handleSSHRequests` / `go handleSSHChannels`). -/
  servingStarted : Bool
  /-- Route indices for which a reverse stub listener was successfully
  bound (`NewTCPProxy(...).Start`). -/
  reverseStubsBound : List Nat
  /-- The `SessionID → User` map after the step. -/
  sessionsAfter : List (String × User)

/-- The user pull at the top of the config step: when users are configured,
take and delete this session's entry from the session map (both sources:
share/server_session.go and server/server.go do this identically). -/
def pullUser (users : List User) (sessions : List (String × User)) (sid : String) :
    Option User × List (String × User) :=
  if 0 < users.length then
    (sessionsGet sessions sid, sessionsDel sessions sid)
  else
    (none, sessions)

/-- The per-user route authorization loop: with an associated user, the
first route whose textual form no regex of the user matches fails the
config; returns that route's textual form, or `none` when all routes pass
(or no user is associated). -/
def authorizeRoutes (user : Option User) (chds : List ChannelDescriptor) : Option String :=
  match user with
  | none => none
  | some u => (chds.find? (fun chd => !(u.hasAccess chd.stringForm))).map ChannelDescriptor.stringForm

/-- The reverse stub bring-up loop: walk the descriptors with their route
index; each reverse descriptor binds a stub listener whose success is given
by `stubOk`; a failed bind aborts the loop. Returns the indices bound and
whether the loop completed. -/
def startReverseStubs (stubOk : Nat → Bool) : Nat → List ChannelDescriptor → List Nat × Bool
  | _, [] => ([], true)
  | i, chd :: rest =>
    if chd.reverse then
      if stubOk i then
        let r := startReverseStubs stubOk (i + 1) rest
        (i :: r.1, r.2)
      else
        ([], false)
    else
      startReverseStubs stubOk (i + 1) rest

/-- Embedding of the config step of `ProxySSHSession.runWithSSHConn`
(share/server_session.go). `req = none` models the 10 second timeout
firing before any request arrived (`receiveSSHRequest` cancelled): the
function returns an error without sending any reply. Error reply messages
follow the source's `DebugErrorf` format strings (the decode-error detail
of `Unmarshal` is dropped, since payload decoding is abstracted). -/
def runWithSSHConnStep (users : List User) (sessions : List (String × User)) (sid : String)
    (reverseOk : Bool) (stubOk : Nat → Bool) (req : Option SSHRequest) : ConfigStepResult :=
  let pu := pullUser users sessions sid
  match req with
  | none => ⟨none, false, [], pu.2⟩
  | some r =>
    if r.reqType = "config" then
      match r.payload with
      | none => ⟨some (false, "Invalid session config request encoding"), false, [], pu.2⟩
      | some c =>
        if c.channelDescriptors.any (fun chd => chd.reverse && !reverseOk) then
          ⟨some (false, "Reverse port forwarding not enabled on server"), false, [], pu.2⟩
        else
          match authorizeRoutes pu.1 c.channelDescriptors with
          | some chdString =>
            ⟨some (false, "Access to \"" ++ chdString ++ "\" denied"), false, [], pu.2⟩
          | none =>
            let sr := startReverseStubs stubOk 0 c.channelDescriptors
            if sr.2 then
              ⟨some (true, ""), true, sr.1, pu.2⟩
            else
              ⟨some (false, "Unable to start stub listener"), false, sr.1, pu.2⟩
    else
      ⟨some (false, "Expecting \"config\" request, got \"" ++ r.reqType ++ "\""), false, [], pu.2⟩

/-- A single quote character, for building messages that quote a value. -/
def quoteChar : String := String.singleton (Char.ofNat 39)

/-- Embedding of the config portion of `Server.handleWebsocket`
(server/server.go). Identical control flow to `runWithSSHConnStep`; its
failure messages differ (note the source's spelling of the reverse
rejection: "Reverse port forwaring not enabled on server"). On timeout the
source closes the SSH connection and returns without a reply. -/
def handleWebsocketStep (users : List User) (sessions : List (String × User)) (sid : String)
    (reverseOk : Bool) (stubOk : Nat → Bool) (req : Option SSHRequest) : ConfigStepResult :=
  let pu := pullUser users sessions sid
  match req with
  | none => ⟨none, false, [], pu.2⟩
  | some r =>
    if r.reqType = "config" then
      match r.payload with
      | none => ⟨some (false, "invalid config"), false, [], pu.2⟩
      | some c =>
        if c.channelDescriptors.any (fun chd => chd.reverse && !reverseOk) then
          ⟨some (false, "Reverse port forwaring not enabled on server"), false, [], pu.2⟩
        else
          match authorizeRoutes pu.1 c.channelDescriptors with
          | some chdString =>
            ⟨some (false, "access to " ++ quoteChar ++ chdString ++ quoteChar ++ " denied"), false, [], pu.2⟩
          | none =>
            let sr := startReverseStubs stubOk 0 c.channelDescriptors
            if sr.2 then
              ⟨some (true, ""), true, sr.1, pu.2⟩
            else
              ⟨some (false, "Unable to start stub listener"), false, sr.1, pu.2⟩
    else
      ⟨some (false, "expecting config request"), false, [], pu.2⟩

/-- Outcome of running one whole session around its config step: the
config-step result, plus whether the server-side code itself closed the
SSH connection before returning (`sshConn.Close()` appearing in its
text). -/
structure SessionRunResult where
  config : ConfigStepResult
  sshConnClosed : Bool

/-- Embedding of `ProxySSHSession.Run` (share/server_session.go): when the
handshake fails there is no SSH connection to close and the config step
never runs; otherwise the config step runs and `Run` closes the SSH
connection unconditionally afterwards (directly on a config error, or when
`sshConn.Wait()` returns after serving). -/
def runSession (users : List User) (sessions : List (String × User)) (sid : String)
    (reverseOk : Bool) (stubOk : Nat → Bool) (handshakeOk : Bool)
    (req : Option SSHRequest) : SessionRunResult :=
  if handshakeOk then
    ⟨runWithSSHConnStep users sessions sid reverseOk stubOk req, true⟩
  else
    ⟨⟨none, false, [], sessions⟩, false⟩

/-- Embedding of `Server.handleWebsocket` (server/server.go) around its
config step. Unlike `Run`, the only `sshConn.Close()` in its text sits in
the timeout branch of the request wait; every other path — the failure
replies as well as the success path, which blocks in `sshConn.Wait()` —
returns from the handler without the handler itself closing the SSH
connection. -/
def handleWebsocketRun (users : List User) (sessions : List (String × User)) (sid : String)
    (reverseOk : Bool) (stubOk : Nat → Bool) (handshakeOk : Bool)
    (req : Option SSHRequest) : SessionRunResult :=
  if handshakeOk then
    ⟨handleWebsocketStep users sessions sid reverseOk stubOk req, req.isNone⟩
  else
    ⟨⟨none, false, [], sessions⟩, false⟩

/-! ## Inbound channel opens on the server

Two server-side handlers exist in the sources. `Server.handleSSHChannels`
(server/server.go) validates the decoded descriptor inline and then
accepts and serves. `SSHSession.handleSSHNewChannel` (the shared session
variant, also used by `ProxySSHSession`) delegates validation to
`NewLocalSkeletonChannelEndpoint` and then accepts and dials. In both, the
channel open carries JSON extra data whose decoding is abstracted as an
`Option ChannelEndpointDescriptor` (`none` models undecodable JSON). -/

/-- SSH channel-open rejection reasons (the subset of
`ssh.RejectionReason` the server uses). -/
inductive RejectionReason where
  | prohibited
  | unknownChannelType
  | connectionFailed
  | resourceShortage
  deriving DecidableEq, Repr

/-- Per-channel decision of `Server.handleSSHChannels` (server/server.go):
either a rejection with its SSH reason and message, or acceptance followed
by serving the stream (SOCKS in-process, or a TCP dial of the descriptor's
path). -/
inductive ChannelOutcome where
  | rejected (reason : RejectionReason) (message : String)
  | acceptedSocks
  | acceptedTCP (path : String)
  deriving DecidableEq, Repr

/-- Whether a channel outcome is a rejection. -/
def ChannelOutcome.isRejection : ChannelOutcome → Bool
  | .rejected _ _ => true
  | _ => false

/-- Embedding of the per-channel body of `Server.handleSSHChannels`
(server/server.go): decode the JSON extra data, require `Role = Skeleton`,
disallow Stdio, Loop and Unix, disallow Socks when the SOCKS5 server is
not enabled, then accept (and hand the stream to the SOCKS server or to
`HandleTCPStream`, which dials the descriptor's path). -/
def handleSSHNewChannelServer (socksEnabled : Bool)
    (extra : Option ChannelEndpointDescriptor) : ChannelOutcome :=
  match extra with
  | none => .rejected .unknownChannelType "Bad JSON ExtraData"
  | some epd =>
    if epd.role ≠ ChannelEndpointRole.skeleton then
      .rejected .prohibited "Role must be skeleton"
    else if epd.type = ChannelEndpointType.stdio then
      .rejected .prohibited "Server-side STDIO not supported"
    else if epd.type = ChannelEndpointType.loop then
      .rejected .prohibited "Loop channels not yet supported"
    else if epd.type = ChannelEndpointType.unix then
      .rejected .prohibited "Unix domain sockets not yet supported"
    else if epd.type = ChannelEndpointType.socks ∧ socksEnabled = false then
      .rejected .prohibited "SOCKS5 is not enabled on the server"
    else if epd.type = ChannelEndpointType.socks then
      .acceptedSocks
    else
      .acceptedTCP epd.path

/-- The channel-open loop of `Server.handleSSHChannels`: each arriving
channel open is decided independently (a rejection `continue`s the loop,
an acceptance is served on its own goroutine; either way the session keeps
serving subsequent opens). -/
def handleSSHChannelsOutcomes (socksEnabled : Bool)
    (chans : List (Option ChannelEndpointDescriptor)) : List ChannelOutcome :=
  chans.map (handleSSHNewChannelServer socksEnabled)

/-- Modelled from the spec: `NewLocalSkeletonChannelEndpoint` (the
construction of the local skeleton endpoint; its source is not among the
embedded files, only its callers are). Per spec §4.6: validate
`Role = Skeleton`, disallow `Stdio` on server skeletons, disallow `Socks`
when SOCKS5 is disabled, disallow `Loop` when the loop server is
disabled. -/
def newLocalSkeletonChannelEndpoint (socksEnabled loopEnabled : Bool)
    (epd : ChannelEndpointDescriptor) : Except String Unit :=
  if epd.role ≠ ChannelEndpointRole.skeleton then
    .error "Role must be skeleton"
  else if epd.type = ChannelEndpointType.stdio then
    .error "Server-side STDIO not supported"
  else if epd.type = ChannelEndpointType.socks ∧ socksEnabled = false then
    .error "SOCKS5 is not enabled on the server"
  else if epd.type = ChannelEndpointType.loop ∧ loopEnabled = false then
    .error "Loop server is not enabled on the server"
  else
    .ok ()

/-- Ordered observable events of handling one inbound channel open. -/
inductive ChanEvent where
  | rejected (reason : RejectionReason) (message : String)
  /-- `ch.Accept()`: the server acknowledged the channel open to the peer. -/
  | accepted
  /-- The skeleton endpoint dialed its local target
  (`ep.DialAndServe` / `HandleTCPStream`). -/
  | dialed (path : String)
  /-- The stream was handed to the in-process SOCKS5 server. -/
  | socksServed
  deriving DecidableEq, Repr

/-- Embedding of `SSHSession.handleSSHNewChannel` (shared session variant;
`ProxySSHSession.handleSSHNewChannel` in share/server_session.go is
line-for-line the same) as its ordered event trace: decode the extra data
(reject with `UnknownChannelType` on bad JSON), construct the local
skeleton endpoint (reject with `Prohibited` on failure), then `ch.Accept()`
and only afterwards `ep.DialAndServe(...)`, the local dial. -/
def handleSSHNewChannelTrace (socksEnabled loopEnabled : Bool)
    (extra : Option ChannelEndpointDescriptor) : List ChanEvent :=
  match extra with
  | none => [.rejected .unknownChannelType "Badly formatted NewChannel request"]
  | some epd =>
    match newLocalSkeletonChannelEndpoint socksEnabled loopEnabled epd with
    | .error msg => [.rejected .prohibited msg]
    | .ok _ => [.accepted, .dialed epd.path]

/-- Embedding of the per-channel body of `Server.handleSSHChannels`
(server/server.go) as its ordered event trace: validations first, then
`ch.Accept()`, then the stream is served (TCP dial of the path, or SOCKS). -/
def handleSSHNewChannelServerTrace (socksEnabled : Bool)
    (extra : Option ChannelEndpointDescriptor) : List ChanEvent :=
  match handleSSHNewChannelServer socksEnabled extra with
  | .rejected reason msg => [.rejected reason msg]
  | .acceptedSocks => [.accepted, .socksServed]
  | .acceptedTCP path => [.accepted, .dialed path]

/-! ## The HTTP entry point (server/server.go `handleClientHandler`) -/

/-- What the server does with one HTTP request. -/
inductive HTTPOutcome where
  /-- `handleWebsocket` was invoked: upgrade and session creation proceed. -/
  | websocketSession
  /-- The request was forwarded to the configured reverse HTTP proxy. -/
  | proxied
  /-- The built-in `/health` endpoint answered. -/
  | health
  /-- The built-in `/version` endpoint answered. -/
  | version
  /-- 404 "Not found" was written. -/
  | notFound
  deriving DecidableEq, Repr

/-- The HTTP status code the handler itself writes, where it writes one
(upgrade and proxying hand the response off). -/
def HTTPOutcome.statusCode : HTTPOutcome → Option Nat
  | .health => some 200
  | .version => some 200
  | .notFound => some 404
  | _ => none

/-- A log line emitted by the HTTP handler. -/
inductive LogLine where
  /-- "ignored client connection using protocol '<got>', expected '<expected>'" -/
  | protocolMismatch (got expected : String)
  deriving DecidableEq, Repr

/-- The chisel subprotocol magic carried in `Sec-WebSocket-Protocol`
(literal in server/server.go). -/
def chiselProtoLead : String := "xevo-chisel-"

/-- Modelled from the spec: `chshare.ProtocolVersion`, "a short constant
like `xevo-chisel-v3`" (its defining source is not among the embedded
files). -/
def protocolVersion : String := "xevo-chisel-v3"

/-- ASCII lower-casing of a header value, charwise (embeds Go's
`strings.ToLower` as applied to the `Upgrade` header). -/
def headerToLower (s : String) : String :=
  String.mk (s.data.map Char.toLower)

/-- Whether a protocol value begins with the chisel magic (embeds Go's
`strings.HasPrefix(protocol, "xevo-chisel-")`). -/
def hasChiselLead (s : String) : Bool :=
  chiselProtoLead.data.isPrefixOf s.data

/-- An HTTP request as `handleClientHandler` inspects it. -/
structure HTTPRequest where
  upgradeHeader : String
  secWebSocketProtocol : String
  url : String
  deriving DecidableEq, Repr

/-- The fall-through tail of `handleClientHandler`: forward to the reverse
proxy when one is configured, otherwise answer `/health` and `/version`,
otherwise 404. -/
def clientHandlerFallthrough (hasReverseProxy : Bool) (r : HTTPRequest)
    (logs : List LogLine) : HTTPOutcome × List LogLine :=
  if hasReverseProxy then
    (.proxied, logs)
  else if r.url = "/health" then
    (.health, logs)
  else if r.url = "/version" then
    (.version, logs)
  else
    (.notFound, logs)

/-- Embedding of `Server.handleClientHandler` (server/server.go): a
websocket upgrade whose `Sec-WebSocket-Protocol` begins with the chisel
magic is upgraded when it equals the expected protocol version; on a
version mismatch one info line is logged and the request silently falls
through to the proxy / built-in endpoints / 404. -/
def handleClientHandler (hasReverseProxy : Bool) (r : HTTPRequest) :
    HTTPOutcome × List LogLine :=
  if headerToLower r.upgradeHeader = "websocket" ∧
      hasChiselLead r.secWebSocketProtocol = true then
    if r.secWebSocketProtocol = protocolVersion then
      (.websocketSession, [])
    else
      clientHandlerFallthrough hasReverseProxy r
        [.protocolMismatch r.secWebSocketProtocol protocolVersion]
  else
    clientHandlerFallthrough hasReverseProxy r []

/-! ## Claims -/

/-- C5: On the server's inbound channel-open handler
(`Server.handleSSHChannels`), extra data that fails to decode as an
endpoint descriptor is rejected with reason `UnknownChannelType`; a decoded
descriptor whose role is not `Skeleton` is rejected with reason
`Prohibited`; and every descriptor of type `Stdio` is rejected (Stdio is
disallowed on server skeletons). -/
theorem c5_descriptor_validation (socksEnabled : Bool)
    (t t2 : ChannelEndpointType) (p p2 p3 : String)
    (role : ChannelEndpointRole) :
    handleSSHNewChannelServer socksEnabled none
      = ChannelOutcome.rejected RejectionReason.unknownChannelType "Bad JSON ExtraData" ∧
    handleSSHNewChannelServer socksEnabled (some ⟨ChannelEndpointRole.stub, t, p⟩)
      = ChannelOutcome.rejected RejectionReason.prohibited "Role must be skeleton" ∧
    handleSSHNewChannelServer socksEnabled (some ⟨ChannelEndpointRole.unknown, t2, p2⟩)
      = ChannelOutcome.rejected RejectionReason.prohibited "Role must be skeleton" ∧
    (handleSSHNewChannelServer socksEnabled
        (some ⟨role, ChannelEndpointType.stdio, p3⟩)).isRejection = true := by
  refine ⟨rfl, rfl, rfl, ?_⟩
  cases role <;> rfl

/-- C6: With SOCKS5 disabled on the server, an inbound channel open whose
skeleton descriptor has type `Socks` is rejected with the
feature-not-enabled rejection ("SOCKS5 is not enabled on the server",
reason `ssh.Prohibited`); the channel loop continues (the session
survives), and a subsequent non-Socks (TCP skeleton) channel open in the
same session is still accepted. -/
theorem c6_socks_disabled_session_survives
    (pre post : List (Option ChannelEndpointDescriptor)) (sockPath tcpPath : String) :
    handleSSHChannelsOutcomes false
        (pre ++ some ⟨ChannelEndpointRole.skeleton, ChannelEndpointType.socks, sockPath⟩
          :: some ⟨ChannelEndpointRole.skeleton, ChannelEndpointType.tcp, tcpPath⟩ :: post)
      = handleSSHChannelsOutcomes false pre
        ++ ChannelOutcome.rejected RejectionReason.prohibited "SOCKS5 is not enabled on the server"
          :: ChannelOutcome.acceptedTCP tcpPath :: handleSSHChannelsOutcomes false post := by
  simp [handleSSHChannelsOutcomes, handleSSHNewChannelServer]


/-- On every request, a server with a reverse proxy configured either
upgrades (matching chisel websocket request) or forwards to the proxy;
it never reaches the built-in endpoints or the 404 fallback. -/
theorem handleClientHandler_true_cases (r : HTTPRequest) :
    (handleClientHandler true r).1 = HTTPOutcome.websocketSession ∨
    (handleClientHandler true r).1 = HTTPOutcome.proxied := by
  unfold handleClientHandler clientHandlerFallthrough
  split
  · split
    · left; rfl
    · right; rfl
  · right; rfl

/-- C8: A websocket-upgrade request whose `Sec-WebSocket-Protocol` carries
the chisel magic but differs from the expected protocol version is never
upgraded (no session is created), the mismatch is logged, and — when no
reverse proxy is configured and the URL is neither `/health` nor
`/version` — the request is answered with status 404. -/
theorem c8_version_mismatch_no_upgrade (hasProxy : Bool) (r : HTTPRequest)
    (hup : headerToLower r.upgradeHeader = "websocket")
    (hlead : hasChiselLead r.secWebSocketProtocol = true)
    (hne : r.secWebSocketProtocol ≠ protocolVersion) :
    (handleClientHandler hasProxy r).1 ≠ HTTPOutcome.websocketSession ∧
    (handleClientHandler hasProxy r).2
      = [LogLine.protocolMismatch r.secWebSocketProtocol protocolVersion] ∧
    (hasProxy = false → r.url ≠ "/health" → r.url ≠ "/version" →
      (handleClientHandler hasProxy r).1 = HTTPOutcome.notFound ∧
      ((handleClientHandler hasProxy r).1).statusCode = some 404) := by
  have hh : handleClientHandler hasProxy r
      = clientHandlerFallthrough hasProxy r
          [.protocolMismatch r.secWebSocketProtocol protocolVersion] := by
    simp [handleClientHandler, hup, hlead, hne]
  refine ⟨?_, ?_, ?_⟩
  · rw [hh]
    unfold clientHandlerFallthrough
    split
    · simp
    · split
      · simp
      · split <;> simp
  · rw [hh]
    unfold clientHandlerFallthrough
    split
    · simp
    · split
      · simp
      · split <;> simp
  · intro hp h1 h2
    rw [hh]
    simp [clientHandlerFallthrough, hp, h1, h2, HTTPOutcome.statusCode]

/-- Witness for `c8_version_mismatch_no_upgrade` at a concrete request:
`Upgrade: WebSocket`, `Sec-WebSocket-Protocol: xevo-chisel-vOLD`, URL
`/x`, no reverse proxy configured. -/
theorem c8_version_mismatch_no_upgrade_witness :
    (handleClientHandler false ⟨"WebSocket", "xevo-chisel-vOLD", "/x"⟩).1
      = HTTPOutcome.notFound ∧
    (handleClientHandler false ⟨"WebSocket", "xevo-chisel-vOLD", "/x"⟩).2
      = [LogLine.protocolMismatch "xevo-chisel-vOLD" protocolVersion] ∧
    ((handleClientHandler false ⟨"WebSocket", "xevo-chisel-vOLD", "/x"⟩).1).statusCode
      = some 404 := by
  have h := c8_version_mismatch_no_upgrade false ⟨"WebSocket", "xevo-chisel-vOLD", "/x"⟩
    (by decide) (by decide) (by decide)
  exact ⟨(h.2.2 rfl (by decide) (by decide)).1, h.2.1, (h.2.2 rfl (by decide) (by decide)).2⟩

/-- C10: With a reverse proxy configured, every HTTP request that is not a
matching chisel websocket upgrade is forwarded to the proxy — including
requests for `/health` and `/version` (the URL below is arbitrary) — and
the built-in `/health` / `/version` endpoints and the 404 fallback are
reachable only when no reverse proxy is configured. -/
theorem c10_reverse_proxy_precedence (r : HTTPRequest)
    (hno : ¬(headerToLower r.upgradeHeader = "websocket" ∧
        hasChiselLead r.secWebSocketProtocol = true ∧
        r.secWebSocketProtocol = protocolVersion)) :
    (handleClientHandler true r).1 = HTTPOutcome.proxied ∧
    (∀ (b : Bool) (r' : HTTPRequest),
      ((handleClientHandler b r').1 = HTTPOutcome.health ∨
       (handleClientHandler b r').1 = HTTPOutcome.version ∨
       (handleClientHandler b r').1 = HTTPOutcome.notFound) → b = false) := by
  constructor
  · unfold handleClientHandler
    split
    · rename_i hc
      split
      · rename_i hv
        exact absurd ⟨hc.1, hc.2, hv⟩ hno
      · rfl
    · rfl
  · intro b r' hout
    cases b with
    | false => rfl
    | true =>
      rcases handleClientHandler_true_cases r' with h | h <;>
        rw [h] at hout <;> simp at hout

/-- Witness for `c10_reverse_proxy_precedence` at a concrete
non-matching request: a plain GET for `/health`. -/
theorem c10_reverse_proxy_precedence_witness :
    (handleClientHandler true ⟨"", "", "/health"⟩).1 = HTTPOutcome.proxied := by
  exact (c10_reverse_proxy_precedence ⟨"", "", "/health"⟩ (by decide)).1

/-- The config step leaves the session map exactly as the user pull left
it, on every path (`runWithSSHConnStep` never touches the map after the
take-and-delete at its top). -/
theorem runWithSSHConnStep_sessionsAfter (users : List User)
    (sessions : List (String × User)) (sid : String) (reverseOk : Bool)
    (stubOk : Nat → Bool) (req : Option SSHRequest) :
    (runWithSSHConnStep users sessions sid reverseOk stubOk req).sessionsAfter
      = (pullUser users sessions sid).2 := by
  unfold runWithSSHConnStep
  cases req with
  | none => rfl
  | some r =>
    simp only
    split
    · cases r.payload with
      | none => rfl
      | some c =>
        simp only
        split
        · rfl
        · split
          · rfl
          · split <;> rfl
    · rfl

/-- Same fact for the `handleWebsocket` rendering of the config step. -/
theorem handleWebsocketStep_sessionsAfter (users : List User)
    (sessions : List (String × User)) (sid : String) (reverseOk : Bool)
    (stubOk : Nat → Bool) (req : Option SSHRequest) :
    (handleWebsocketStep users sessions sid reverseOk stubOk req).sessionsAfter
      = (pullUser users sessions sid).2 := by
  unfold handleWebsocketStep
  cases req with
  | none => rfl
  | some r =>
    simp only
    split
    · cases r.payload with
      | none => rfl
      | some c =>
        simp only
        split
        · rfl
        · split
          · rfl
          · split <;> rfl
    · rfl

/-- C7: The password callback `authUser` accepts every pair when no users
are configured (recording nothing); with users configured it accepts a
pair exactly when the username is found in the user index and the supplied
password equals the stored one under the source's plain string comparison;
and on acceptance it records the `(SessionID → User)` entry, retrievable
afterwards. -/
theorem c7_authUser_behaviour (users : List User) (sessions : List (String × User))
    (sid un pw pw2 : String) (u : User)
    (hne : users.length ≠ 0)
    (hfind : users.find? (fun v => v.name == un) = some u)
    (hpw : u.pass = pw) :
    (∀ un2 pw3 : String, authUser [] sessions sid un2 pw3 = (true, sessions)) ∧
    (authUser users sessions sid un pw2).1 = (u.pass == pw2) ∧
    (∀ un3 : String, users.find? (fun v => v.name == un3) = none →
      authUser users sessions sid un3 pw2 = (false, sessions)) ∧
    authUser users sessions sid un pw = (true, sessionsSet sessions sid u) ∧
    sessionsGet (sessionsSet sessions sid u) sid = some u := by
  refine ⟨fun un2 pw3 => rfl, ?_, ?_, ?_, sessionsGet_set sessions sid u⟩
  · unfold authUser
    rw [if_neg hne, hfind]
    by_cases h : u.pass = pw2
    · simp [h]
    · simp [h]
  · intro un3 hnone
    unfold authUser
    rw [if_neg hne, hnone]
  · unfold authUser
    rw [if_neg hne, hfind]
    simp [hpw]

/-- Witness for `c7_authUser_behaviour`: a one-user index holding
`("alice", "secret")`, looked up with `un = "alice"`, a correct password
and a wrong trial password. -/
theorem c7_authUser_behaviour_witness :
    (authUser [⟨"alice", "secret", [UserAllowAll]⟩] [] "sid1" "alice" "secret").1 = true ∧
    (authUser [⟨"alice", "secret", [UserAllowAll]⟩] [] "sid1" "alice" "guess").1 = false ∧
    sessionsGet (authUser [⟨"alice", "secret", [UserAllowAll]⟩] [] "sid1" "alice" "secret").2 "sid1"
      = some ⟨"alice", "secret", [UserAllowAll]⟩ := by
  have h := c7_authUser_behaviour [⟨"alice", "secret", [UserAllowAll]⟩] [] "sid1"
    "alice" "secret" "guess" ⟨"alice", "secret", [UserAllowAll]⟩
    (by decide) (by simp [List.find?]) rfl
  refine ⟨?_, ?_, ?_⟩
  · rw [h.2.2.2.1]
  · rw [h.2.1]
    decide
  · rw [h.2.2.2.1]
    exact h.2.2.2.2

/-- C9: The `(SessionID → User)` entry inserted by the auth callback is
taken and deleted again at the top of the config step: for a fresh session
id, whatever the auth callback left in the session map, after the config
step ran (in either implementation, whatever request arrived) the map no
longer holds an entry for that session. -/
theorem c9_session_map_cleared (users : List User) (m : List (String × User))
    (sid un pw : String) (reverseOk : Bool) (stubOk : Nat → Bool)
    (req req2 : Option SSHRequest)
    (hfresh : sessionsGet m sid = none)
    (_hauth : (authUser users m sid un pw).1 = true) :
    sessionsGet
        (runWithSSHConnStep users (authUser users m sid un pw).2 sid
          reverseOk stubOk req).sessionsAfter sid = none ∧
    sessionsGet
        (handleWebsocketStep users (authUser users m sid un pw).2 sid
          reverseOk stubOk req2).sessionsAfter sid = none := by
  rw [runWithSSHConnStep_sessionsAfter, handleWebsocketStep_sessionsAfter]
  unfold pullUser
  by_cases h : 0 < users.length
  · rw [if_pos h]
    constructor <;> exact sessionsGet_del _ sid
  · have hlen : users.length = 0 := Nat.eq_zero_of_not_pos h
    rw [if_neg h]
    simp only [authUser, hlen, if_pos rfl]
    exact ⟨hfresh, hfresh⟩

/-- Witness for `c9_session_map_cleared`: one configured user, a fresh
session id, a successful authentication, a well-formed empty config
request on one path and a timeout on the other. -/
theorem c9_session_map_cleared_witness :
    sessionsGet
        (runWithSSHConnStep [⟨"bob", "pw", [UserAllowAll]⟩]
          (authUser [⟨"bob", "pw", [UserAllowAll]⟩] [] "sid9" "bob" "pw").2 "sid9"
          true (fun _ => true) (some ⟨"config", some ⟨"", []⟩⟩)).sessionsAfter "sid9"
      = none ∧
    sessionsGet
        (handleWebsocketStep [⟨"bob", "pw", [UserAllowAll]⟩]
          (authUser [⟨"bob", "pw", [UserAllowAll]⟩] [] "sid9" "bob" "pw").2 "sid9"
          true (fun _ => true) none).sessionsAfter "sid9"
      = none := by
  exact c9_session_map_cleared [⟨"bob", "pw", [UserAllowAll]⟩] [] "sid9" "bob" "pw"
    true (fun _ => true) (some ⟨"config", some ⟨"", []⟩⟩) none rfl rfl

/-- C2 (counterexample): the `handleWebsocket` rendering of the config
step (server/server.go) rejects a reverse route, with reverse disabled,
with the message "Reverse port forwaring not enabled on server" — which is
not the string "Reverse port forwarding not enabled on server" the claim
names. -/
theorem c2_counterexample :
    (handleWebsocketStep [] [] "" false (fun _ => true)
        (some ⟨"config", some ⟨"",
          [⟨true, ⟨ChannelEndpointRole.stub, ChannelEndpointType.tcp, "0.0.0.0:34002"⟩,
            ⟨ChannelEndpointRole.skeleton, ChannelEndpointType.tcp, "127.0.0.1:9001"⟩⟩]⟩⟩)).reply
      = some (false, "Reverse port forwaring not enabled on server") ∧
    "Reverse port forwaring not enabled on server"
      ≠ "Reverse port forwarding not enabled on server" := by
  exact ⟨rfl, by decide⟩

/-- C2 (amended): if the session configuration contains any reverse
channel descriptor while reverse tunneling is disabled, both config-step
implementations reply failure — `runWithSSHConn` with "Reverse port
forwarding not enabled on server", `handleWebsocket` with the source's
spelling "Reverse port forwaring not enabled on server" — no serving
starts, no reverse stub listener is bound, and (in `Run`) the SSH
connection is closed. -/
theorem c2_reverse_disabled_rejected (users : List User)
    (sessions : List (String × User)) (sid v : String) (stubOk : Nat → Bool)
    (chds : List ChannelDescriptor)
    (hrev : chds.any (fun chd => chd.reverse) = true) :
    (runWithSSHConnStep users sessions sid false stubOk
        (some ⟨"config", some ⟨v, chds⟩⟩)).reply
      = some (false, "Reverse port forwarding not enabled on server") ∧
    (runWithSSHConnStep users sessions sid false stubOk
        (some ⟨"config", some ⟨v, chds⟩⟩)).servingStarted = false ∧
    (runWithSSHConnStep users sessions sid false stubOk
        (some ⟨"config", some ⟨v, chds⟩⟩)).reverseStubsBound = [] ∧
    (handleWebsocketStep users sessions sid false stubOk
        (some ⟨"config", some ⟨v, chds⟩⟩)).reply
      = some (false, "Reverse port forwaring not enabled on server") ∧
    (handleWebsocketStep users sessions sid false stubOk
        (some ⟨"config", some ⟨v, chds⟩⟩)).servingStarted = false ∧
    (handleWebsocketStep users sessions sid false stubOk
        (some ⟨"config", some ⟨v, chds⟩⟩)).reverseStubsBound = [] ∧
    (runSession users sessions sid false stubOk true
        (some ⟨"config", some ⟨v, chds⟩⟩)).sshConnClosed = true := by
  have hex : ∃ x ∈ chds, x.reverse = true := by
    simpa using hrev
  unfold runSession runWithSSHConnStep handleWebsocketStep
  simp [hex]

/-- Witness for `c2_reverse_disabled_rejected`: a single reverse TCP
route, reverse tunneling disabled. -/
theorem c2_reverse_disabled_rejected_witness :
    (runWithSSHConnStep [] [] "" false (fun _ => true)
        (some ⟨"config", some ⟨"",
          [⟨true, ⟨ChannelEndpointRole.stub, ChannelEndpointType.tcp, "0.0.0.0:34002"⟩,
            ⟨ChannelEndpointRole.skeleton, ChannelEndpointType.tcp, "127.0.0.1:9001"⟩⟩]⟩⟩)).reply
      = some (false, "Reverse port forwarding not enabled on server") ∧
    (runWithSSHConnStep [] [] "" false (fun _ => true)
        (some ⟨"config", some ⟨"",
          [⟨true, ⟨ChannelEndpointRole.stub, ChannelEndpointType.tcp, "0.0.0.0:34002"⟩,
            ⟨ChannelEndpointRole.skeleton, ChannelEndpointType.tcp, "127.0.0.1:9001"⟩⟩]⟩⟩)).reverseStubsBound
      = [] := by
  have h := c2_reverse_disabled_rejected [] [] "" "" (fun _ => true)
    [⟨true, ⟨ChannelEndpointRole.stub, ChannelEndpointType.tcp, "0.0.0.0:34002"⟩,
      ⟨ChannelEndpointRole.skeleton, ChannelEndpointType.tcp, "127.0.0.1:9001"⟩⟩] rfl
  exact ⟨h.1, h.2.2.1⟩

/-- C3 (counterexample): when no request at all arrives within the 10
second window (`req = none`), the config step sends no reply — there is no
failure reply, contrary to the claim's "replies to the request with
failure" for the timeout case. -/
theorem c3_counterexample :
    (runWithSSHConnStep [] [] "" true (fun _ => true) none).reply = none ∧
    (handleWebsocketStep [] [] "" true (fun _ => true) none).reply = none := by
  exact ⟨rfl, rfl⟩

/-- C3 (amended): if no control request arrives within the 10 second
window the session is torn down without any reply (there is no request to
reply to) — `runWithSSHConn` returns an error and `Run` closes the SSH
connection, `handleWebsocket` closes it directly in the timeout branch; if
the first request's type is not "config", or its payload does not decode,
the server replies to the request with failure. In all three cases no
channels are served. The share-side `Run` closes the SSH connection in all
three cases; `handleWebsocket` closes it only on timeout and returns from
the wrong-type and undecodable-payload paths without `sshConn.Close()`. -/
theorem c3_config_await_failures (users : List User)
    (sessions : List (String × User)) (sid : String) (reverseOk : Bool)
    (stubOk : Nat → Bool) (r : SSHRequest)
    (hty : r.reqType ≠ "config") :
    (runWithSSHConnStep users sessions sid reverseOk stubOk none).reply = none ∧
    (runWithSSHConnStep users sessions sid reverseOk stubOk none).servingStarted = false ∧
    (runSession users sessions sid reverseOk stubOk true none).sshConnClosed = true ∧
    (handleWebsocketStep users sessions sid reverseOk stubOk none).reply = none ∧
    (handleWebsocketStep users sessions sid reverseOk stubOk none).servingStarted = false ∧
    (handleWebsocketRun users sessions sid reverseOk stubOk true none).sshConnClosed = true ∧
    (runWithSSHConnStep users sessions sid reverseOk stubOk (some r)).reply
      = some (false, "Expecting \"config\" request, got \"" ++ r.reqType ++ "\"") ∧
    (runWithSSHConnStep users sessions sid reverseOk stubOk (some r)).servingStarted = false ∧
    (runSession users sessions sid reverseOk stubOk true (some r)).sshConnClosed = true ∧
    (handleWebsocketStep users sessions sid reverseOk stubOk (some r)).reply
      = some (false, "expecting config request") ∧
    (handleWebsocketStep users sessions sid reverseOk stubOk (some r)).servingStarted = false ∧
    (handleWebsocketRun users sessions sid reverseOk stubOk true (some r)).sshConnClosed
      = false ∧
    (runWithSSHConnStep users sessions sid reverseOk stubOk
        (some ⟨"config", none⟩)).reply
      = some (false, "Invalid session config request encoding") ∧
    (runWithSSHConnStep users sessions sid reverseOk stubOk
        (some ⟨"config", none⟩)).servingStarted = false ∧
    (runSession users sessions sid reverseOk stubOk true
        (some ⟨"config", none⟩)).sshConnClosed = true ∧
    (handleWebsocketStep users sessions sid reverseOk stubOk
        (some ⟨"config", none⟩)).reply = some (false, "invalid config") ∧
    (handleWebsocketStep users sessions sid reverseOk stubOk
        (some ⟨"config", none⟩)).servingStarted = false ∧
    (handleWebsocketRun users sessions sid reverseOk stubOk true
        (some ⟨"config", none⟩)).sshConnClosed = false := by
  unfold runSession handleWebsocketRun runWithSSHConnStep handleWebsocketStep
  simp [hty]

/-- Witness for `c3_config_await_failures`: the first request is a
"ping". -/
theorem c3_config_await_failures_witness :
    (runWithSSHConnStep [] [] "" true (fun _ => true) (some ⟨"ping", none⟩)).reply
      = some (false, "Expecting \"config\" request, got \"ping\"") ∧
    (runWithSSHConnStep [] [] "" true (fun _ => true) none).reply = none ∧
    (handleWebsocketRun [] [] "" true (fun _ => true) true
        (some ⟨"ping", none⟩)).sshConnClosed = false := by
  have h := c3_config_await_failures [] [] "" true (fun _ => true) ⟨"ping", none⟩ (by decide)
  exact ⟨h.2.2.2.2.2.2.1, h.1, h.2.2.2.2.2.2.2.2.2.2.2.1⟩

/-- A user whose only allow-regex matches the single route string
`tcp:127.0.0.1:9001` (the matcher of the compiled regex, extensionally). -/
def alice : User := ⟨"alice", "secret", [fun s => s == "tcp:127.0.0.1:9001"]⟩

/-- The skeleton descriptor of a route alice is NOT allowed to use. -/
def deniedSkeleton : ChannelEndpointDescriptor :=
  ⟨ChannelEndpointRole.skeleton, ChannelEndpointType.tcp, "127.0.0.1:9002"⟩

/-- The route (forward, TCP) whose skeleton is `deniedSkeleton`; its
textual form is `tcp:127.0.0.1:9002`, which no regex of alice matches. -/
def deniedRoute : ChannelDescriptor :=
  ⟨false, ⟨ChannelEndpointRole.stub, ChannelEndpointType.tcp, "127.0.0.1:34002"⟩, deniedSkeleton⟩

/-- C1: The config step does reject a configuration carrying the denied
route — but the per-route access check exists only there. A session of
alice whose config lists no routes is accepted and proceeds to serve
channel opens, and the inbound channel-open handler
(`SSHSession.handleSSHNewChannel`) then accepts and dials the denied
route's skeleton descriptor: its accept/reject decision is a function of
the descriptor alone and consults no user (the source marks this with
"TODO: ***MUST*** implement access control here"). -/
theorem c1_channel_open_bypasses_access :
    (runWithSSHConnStep [alice] [("sid1", alice)] "sid1" true (fun _ => true)
        (some ⟨"config", some ⟨"1.0", [deniedRoute]⟩⟩)).reply
      = some (false, "Access to \"tcp:127.0.0.1:9002\" denied") ∧
    (runWithSSHConnStep [alice] [("sid1", alice)] "sid1" true (fun _ => true)
        (some ⟨"config", some ⟨"1.0", [deniedRoute]⟩⟩)).servingStarted = false ∧
    (runWithSSHConnStep [alice] [("sid1", alice)] "sid1" true (fun _ => true)
        (some ⟨"config", some ⟨"1.0", []⟩⟩)).servingStarted = true ∧
    alice.hasAccess deniedRoute.stringForm = false ∧
    handleSSHNewChannelTrace true true (some deniedSkeleton)
      = [ChanEvent.accepted, ChanEvent.dialed "127.0.0.1:9002"] ∧
    handleSSHNewChannelServerTrace true (some deniedSkeleton)
      = [ChanEvent.accepted, ChanEvent.dialed "127.0.0.1:9002"] := by
  exact ⟨rfl, rfl, rfl, rfl, rfl, rfl⟩

/-- C4: For a valid TCP skeleton descriptor, both server-side channel-open
handlers emit `ch.Accept()` strictly before the local target dial: the
event trace is `[accepted, dialed path]` (the source marks the intended
opposite order with a TODO). -/
theorem c4_accept_precedes_dial :
    handleSSHNewChannelTrace true true
        (some ⟨ChannelEndpointRole.skeleton, ChannelEndpointType.tcp, "127.0.0.1:9"⟩)
      = [ChanEvent.accepted, ChanEvent.dialed "127.0.0.1:9"] ∧
    handleSSHNewChannelServerTrace true
        (some ⟨ChannelEndpointRole.skeleton, ChannelEndpointType.tcp, "127.0.0.1:9"⟩)
      = [ChanEvent.accepted, ChanEvent.dialed "127.0.0.1:9"] ∧
    List.indexOf ChanEvent.accepted
        (handleSSHNewChannelTrace true true
          (some ⟨ChannelEndpointRole.skeleton, ChannelEndpointType.tcp, "127.0.0.1:9"⟩))
      < List.indexOf (ChanEvent.dialed "127.0.0.1:9")
        (handleSSHNewChannelTrace true true
          (some ⟨ChannelEndpointRole.skeleton, ChannelEndpointType.tcp, "127.0.0.1:9"⟩)) := by
  refine ⟨rfl, rfl, ?_⟩
  decide
